import Mathlib

/-!
Verification of the Rainyun-Qiandao captcha-solving core.

Shallow embedding of the Python sources `rainyun.py` and `0x6768/rainyun.py`:

* Python `float` values (SIFT distances, similarity scores, element sizes)
  are modelled by `ℚ`; the literal `0.8` is the rational `4/5`.
* Python `str` equality is Lean `String` equality; `str.endswith` is a
  suffix test on the character lists.
* Python dictionaries (insertion ordered, unique keys) are association
  lists `List (String × PyVal)`, where `PyVal` is the union of the two
  value types actually stored (float similarity, string position).
* `cv2`/`ddddocr` are external: the detector's boxes, the per-pair SIFT
  similarity and the classifier's labels are parameters of the embedding.
* Exceptions are modelled by `Except PyExn`; the recursive retry loop of
  `process_captcha` is a Lean recursion on the remaining budget.
-/

/-- Values stored in the per-attempt result dictionary of `process_captcha`:
float similarities and string positions. -/
inductive PyVal where
  | num (q : ℚ)
  | str (s : String)
deriving DecidableEq

/-- Model of Python `str.endswith`: the suffix's characters are a suffix of
the string's characters. -/
def pyEndsWith (s post : String) : Bool :=
  post.toList.isSuffixOf s.toList

/-- The key suffix `".position"` used by `check_answer` (rainyun.py line 433). -/
def positionSuffix : String := ".position"

/-- The position values of a result dictionary: values of the keys ending in
`".position"`, in order (rainyun.py line 433). -/
def positionsOf (d : List (String × PyVal)) : List PyVal :=
  (d.filter fun kv => pyEndsWith kv.1 positionSuffix).map Prod.snd

/-- `check_answer` of rainyun.py lines 427-437: reject an empty or
incomplete dictionary (fewer than 6 keys), reject fewer than 3 position
values, then accept iff the position values are pairwise distinct
(`len(positions) == len(set(positions))`). -/
def check_answer (d : List (String × PyVal)) : Bool :=
  if d.isEmpty || d.length < 6 then false
  else
    let positions := positionsOf d
    if positions.length < 3 then false
    else positions.length == positions.dedup.length

/-- `check_answer` of 0x6768/rainyun.py lines 333-342: same size guard, then
build `flipped` (value ↦ key) and accept iff
`len(d.values()) == len(flipped.keys())`, i.e. iff all stored values
(similarities included) are pairwise distinct. -/
def check_answer_alt (d : List (String × PyVal)) : Bool :=
  if d.isEmpty || d.length < 6 then false
  else d.length == (d.map Prod.snd).dedup.length

/-- A complete result dictionary for the three sprites, as built by the scan
loop of `process_captcha` (similarity and position entry per sprite). -/
def completeResult (a1 a2 a3 : ℚ) (p1 p2 p3 : String) : List (String × PyVal) :=
  [(r"sprite_1.similarity", PyVal.num a1), (r"sprite_1.position", PyVal.str p1),
   (r"sprite_2.similarity", PyVal.num a2), (r"sprite_2.position", PyVal.str p2),
   (r"sprite_3.similarity", PyVal.num a3), (r"sprite_3.position", PyVal.str p3)]

/-- The ratio test of `compute_similarity` (rainyun.py line 454) on one
2-NN entry: Python keeps `m` from a pair `[m, n]` when
`m.distance < 0.8 * n.distance`; entries that are not pairs are skipped. -/
def isGoodPair (mn : List ℚ) : Bool :=
  match mn with
  | [m, n] => decide (m < 4/5 * n)
  | _ => false

/-- `compute_similarity` of rainyun.py lines 440-460, abstracted over the
SIFT stage: `des1None`/`des2None` say whether `detectAndCompute` returned no
descriptors for the respective image, and `ms` is the list `matches` of 2-NN
neighbour-distance lists returned by `bf.knnMatch` (each entry has 1 or 2
distances). Returns `(similarity, matched_count)`. -/
def compute_similarity (des1None des2None : Bool) (ms : List (List ℚ)) : ℚ × ℕ :=
  if des1None || des2None then (0, 0)
  else
    let good := ms.filter isGoodPair
    if good.length = 0 then (0, 0)
    else ((good.length : ℚ) / (ms.length : ℚ), good.length)

/-- Python `int()` applied to a float: truncation toward zero. -/
def truncQ (q : ℚ) : ℤ :=
  if 0 ≤ q then ⌊q⌋ else ⌈q⌉

/-- The coordinate mapping of `process_captcha` (rainyun.py lines 361-362):
`x_offset, y_offset = -width/2, -height/2`;
`final = int(offset + raw / raw_size * rendered_size)`. -/
def map_coordinate (x y width_raw height_raw : ℕ) (width height : ℚ) : ℤ × ℤ :=
  let x_offset : ℚ := -(width / 2)
  let y_offset : ℚ := -(height / 2)
  (truncQ (x_offset + (x : ℚ) / (width_raw : ℚ) * width),
   truncQ (y_offset + (y : ℚ) / (height_raw : ℚ) * height))

/-- A detected bounding box `(x1, y1, x2, y2)` from `ctx.det.detection`
(integer pixel coordinates, nonnegative). -/
structure Bbox where
  x1 : ℕ
  y1 : ℕ
  x2 : ℕ
  y2 : ℕ
deriving DecidableEq

/-- The recorded center of a box: `int((x1+x2)/2), int((y1+y2)/2)`
(rainyun.py lines 342/345); `int` of a float midpoint of naturals is
natural-number division by 2. -/
def center (r : Bbox) : ℕ × ℕ :=
  ((r.x1 + r.x2) / 2, (r.y1 + r.y2) / 2)

/-- A sprite's recorded best match: the stored similarity value and the
stored center position (position is rendered to a string only when put in
the result dictionary). -/
structure BestMatch where
  similarity : ℚ
  position : ℕ × ℕ
deriving DecidableEq

/-- One region's update of the running best record, per sprite `j`
(rainyun.py lines 337-345): first result is stored unconditionally; a
stored record is replaced only when `result[similarity_key] < similarity`
(strict). -/
def scanStep (sim : Bbox → Fin 3 → ℚ) (r : Bbox) (best : Fin 3 → Option BestMatch) :
    Fin 3 → Option BestMatch :=
  fun j =>
    match best j with
    | some b => if b.similarity < sim r j then some ⟨sim r j, center r⟩ else some b
    | none => some ⟨sim r j, center r⟩

/-- The full scan of the detected regions (rainyun.py lines 328-345):
region-major loop, all three sprites updated per region; `sim r j` is the
similarity `compute_similarity` returns for sprite `j` against region `r`. -/
def scanRegions (sim : Bbox → Fin 3 → ℚ) (rs : List Bbox) : Fin 3 → Option BestMatch :=
  rs.foldl (fun best r => scanStep sim r best) fun _ => none

/-- Single-sprite view of the scan: the same strict-improvement fold on one
record, starting from accumulator `acc`. -/
def track (f : Bbox → ℚ) (acc : Option BestMatch) : List Bbox → Option BestMatch
  | [] => acc
  | r :: rs =>
    track f
      (match acc with
       | some b => if b.similarity < f r then some ⟨f r, center r⟩ else some b
       | none => some ⟨f r, center r⟩) rs

/-- Specification-side recursion: the best record of a region list, ties and
equal maxima resolved in favour of the earliest region. -/
def specBest (f : Bbox → ℚ) : List Bbox → Option BestMatch
  | [] => none
  | r :: rs =>
    match specBest f rs with
    | none => some ⟨f r, center r⟩
    | some b => if b.similarity ≤ f r then some ⟨f r, center r⟩ else some b

/-- What claim C2 asserts of a scan result: it is a record whose similarity
is the maximum over the scanned regions and whose position is the center of
the first region attaining that maximum. -/
def FirstBestSpec (f : Bbox → ℚ) (rs : List Bbox) (res : Option BestMatch) : Prop :=
  ∃ b, res = some b ∧ (∀ r ∈ rs, f r ≤ b.similarity) ∧
    ∃ l₁ r l₂, rs = l₁ ++ r :: l₂ ∧ f r = b.similarity ∧ b.position = center r ∧
      ∀ r' ∈ l₁, f r' < b.similarity

/-- A sample box for concrete instantiations. -/
def bbox0 : Bbox := ⟨10, 20, 30, 40⟩

/-- The exception kinds distinguished by `process_captcha`'s handler:
the three caught classes (rainyun.py line 383) and a representative of
every other exception type. -/
inductive PyExn where
  | timeoutExc
  | valueError
  | captchaRetryableError
  | otherExn
deriving DecidableEq

/-- The except-clause of `process_captcha` (rainyun.py line 383) catches
exactly `TimeoutException`, `ValueError` and `CaptchaRetryableError`. -/
def caughtByRetryLoop : PyExn → Bool
  | PyExn.timeoutExc => true
  | PyExn.valueError => true
  | PyExn.captchaRetryableError => true
  | PyExn.otherExn => false

/-- Left column of vertical band `i` of a sprite sheet of width `w`:
`raw[:, w // 3 * i : w // 3 * (i + 1)]` (rainyun.py line 417). -/
def bandLo (w i : ℕ) : ℕ := w / 3 * i

/-- Right (exclusive) column of vertical band `i` (rainyun.py line 417). -/
def bandHi (w i : ℕ) : ℕ := w / 3 * (i + 1)

/-- The degenerate classifier labels (rainyun.py line 421). -/
def degenerateLabels : List String := [r"0", r"1"]

/-- `check_captcha` of rainyun.py lines 409-423, abstracted over the image
contents: the sprite sheet has width `w` and `classify lo hi` is the ddddocr
label of the vertical band of columns `[lo, hi)`. Returns `false` (invalid)
iff some band's label is in `["0", "1"]` (the loop returns early on the
first such band). -/
def check_captcha (w : ℕ) (classify : ℕ → ℕ → String) : Bool :=
  (List.range 3).all fun i =>
    !(decide (classify (bandLo w i) (bandHi w i) ∈ degenerateLabels))

/-- Claim C9's reading of "evenly partition the image": every column of the
sheet is covered by one of the three bands. -/
def bandsPartitionImage (w : ℕ) : Prop :=
  ∀ c, c < w → ∃ i, i < 3 ∧ bandLo w i ≤ c ∧ c < bandHi w i

instance (w : ℕ) : Decidable (bandsPartitionImage w) := by
  unfold bandsPartitionImage
  infer_instance

/-- The similarity key `f"sprite_{j+1}.similarity"` of the scan loop. -/
def simKeyOf (j : Fin 3) : String :=
  r"sprite_" ++ toString (j.val + 1) ++ r".similarity"

/-- The position key `f"sprite_{j+1}.position"` of the scan loop. -/
def posKeyOf (j : Fin 3) : String :=
  r"sprite_" ++ toString (j.val + 1) ++ positionSuffix

/-- The stored position string `f"{cx},{cy}"` (rainyun.py lines 342/345). -/
def posStr (p : ℕ × ℕ) : String :=
  toString p.1 ++ r"," ++ toString p.2

/-- The result dictionary at the end of the scan loop, in insertion order:
for each sprite with a record, its similarity entry then its position entry
(all sprites get their entries at the first region, so the dictionary is
either empty or complete). -/
def resultDict (best : Fin 3 → Option BestMatch) : List (String × PyVal) :=
  (List.finRange 3).flatMap fun j =>
    match best j with
    | none => []
    | some b =>
      [(simKeyOf j, PyVal.num b.similarity),
       (posKeyOf j, PyVal.str (posStr b.position))]

/-- Observable events of one `process_captcha` run: image download, validity
check with its result, one feature-matcher call per region/sprite pair,
answer validation, verification read and refresh with its outcome. -/
inductive Ev where
  | download
  | check (valid : Bool)
  | simCall (r : Bbox) (j : Fin 3)
  | answer (ok : Bool)
  | verify (ok : Bool)
  | refresh (ok : Bool)
deriving DecidableEq

/-- How the try-block body of one attempt ends: `return True`, fall through
to the refresh-and-retry tail, or a raised exception. -/
inductive BodyResult where
  | passed
  | fellThrough
  | raised (e : PyExn)
deriving DecidableEq

/-- Everything the outside world contributes to one attempt of
`process_captcha`: whether `download_captcha_img` raises, the sprite sheet
width and classifier labels read by `check_captcha`, whether the background
decodes (`cv2.imread` not None), the detector's boxes, the feature-matcher
similarities, whether the acting/submitting phase raises, the verification
result and whether the reload control works. -/
structure AttemptEnv where
  download : Option PyExn
  spriteWidth : ℕ
  classify : ℕ → ℕ → String
  imreadOk : Bool
  bboxes : List Bbox
  sim : Bbox → Fin 3 → ℚ
  act : Option PyExn
  verifySuccess : Bool
  refreshOk : Bool

/-- The feature-matcher calls of the scan loop, region-major, sprites 1-3
per region (rainyun.py lines 328-336). -/
def simEvents (rs : List Bbox) : List Ev :=
  rs.flatMap fun r => (List.finRange 3).map fun j => Ev.simCall r j

/-- One attempt's try-block (rainyun.py lines 315-378): download both
images, run `check_captcha`; if valid, decode, scan all regions against all
sprites, validate with `check_answer` and on success act, submit and read
the verification result. Returns the emitted events and how the body
ended. -/
def attemptBody (env : AttemptEnv) : List Ev × BodyResult :=
  match env.download with
  | some e => ([Ev.download], BodyResult.raised e)
  | none =>
    if check_captcha env.spriteWidth env.classify then
      if env.imreadOk then
        let best := scanRegions env.sim env.bboxes
        let evs := Ev.download :: Ev.check true :: simEvents env.bboxes
        if check_answer (resultDict best) then
          match env.act with
          | some e => (evs ++ [Ev.answer true], BodyResult.raised e)
          | none =>
            (evs ++ [Ev.answer true, Ev.verify env.verifySuccess],
             if env.verifySuccess then BodyResult.passed else BodyResult.fellThrough)
        else (evs ++ [Ev.answer false], BodyResult.fellThrough)
      else ([Ev.download, Ev.check true], BodyResult.raised PyExn.captchaRetryableError)
    else ([Ev.download, Ev.check false], BodyResult.fellThrough)

/-- `process_captcha` of rainyun.py lines 294-389: return `False` as soon as
`retry_count >= CAPTCHA_RETRY_LIMIT`; otherwise run the attempt body; on
success return `True`; on fall-through or a caught exception refresh
(returning `False` if the reload control fails) and recurse with
`retry_count + 1`; an uncaught exception propagates (`Except.error`).
`envs n` is the world of the attempt with `retry_count = n`. -/
def process_captcha (limit : ℕ) (envs : ℕ → AttemptEnv) (rc : ℕ) :
    List Ev × Except PyExn Bool :=
  if _h : limit ≤ rc then ([], Except.ok false)
  else
    let body := attemptBody (envs rc)
    match body.2 with
    | BodyResult.passed => (body.1, Except.ok true)
    | BodyResult.fellThrough =>
      if (envs rc).refreshOk then
        let rest := process_captcha limit envs (rc + 1)
        (body.1 ++ Ev.refresh true :: rest.1, rest.2)
      else (body.1 ++ [Ev.refresh false], Except.ok false)
    | BodyResult.raised e =>
      if caughtByRetryLoop e then
        if (envs rc).refreshOk then
          let rest := process_captcha limit envs (rc + 1)
          (body.1 ++ Ev.refresh true :: rest.1, rest.2)
        else (body.1 ++ [Ev.refresh false], Except.ok false)
      else (body.1, Except.error e)
termination_by limit - rc
decreasing_by all_goals omega

/-- The slider element as the coordinate-mapping step sees it: the width and
height parses of the inline style (`None` models a `ValueError` of
`get_width_from_style`/`get_height_from_style`), and the measured element
size (`element.size`, `0` for a missing or zero dimension). -/
structure ElementView where
  styleW : Option ℚ
  styleH : Option ℚ
  measuredW : ℚ
  measuredH : ℚ

/-- `get_element_size` of rainyun.py lines 285-291: raise `ValueError` when
either measured dimension is falsy (0), else return the pair. -/
def get_element_size (w h : ℚ) : Except PyExn (ℚ × ℚ) :=
  if w = 0 ∨ h = 0 then Except.error PyExn.valueError else Except.ok (w, h)

/-- The size-resolution step of `process_captcha` (rainyun.py lines
356-360): take both dimensions from the inline style; if either style parse
raises, fall back to `get_element_size` on the measured size. -/
def resolve_element_size (e : ElementView) : Except PyExn (ℚ × ℚ) :=
  match e.styleW, e.styleH with
  | some w, some h => Except.ok (w, h)
  | _, _ => get_element_size e.measuredW e.measuredH

/-- A concrete attempt world whose sprite sheet classifies as degenerate
(every band labels as "0") and whose reload control fails. -/
def envDegenerate : AttemptEnv where
  download := none
  spriteWidth := 9
  classify := fun _ _ => r"0"
  imreadOk := true
  bboxes := [bbox0]
  sim := fun _ _ => 0
  act := none
  verifySuccess := false
  refreshOk := false


theorem length_dedup_eq_iff {α : Type} [DecidableEq α] (l : List α) :
    (l.dedup.length = l.length) ↔ l.Nodup := by
  constructor
  · intro h
    have hsub : l.dedup.Sublist l := List.dedup_sublist l
    have : l.dedup = l := hsub.eq_of_length h
    rw [← this]
    exact l.nodup_dedup
  · intro h
    rw [List.dedup_eq_self.mpr h]

/-- Claim C1: `compute_similarity` accepts a 2-NN pair as good exactly when
the nearest distance is strictly below `0.8` times the second-nearest
distance; with descriptors on both sides it returns
(good count / total 2-NN attempts, good count), and whenever either image
has no descriptors it returns `(0.0, 0)`. -/
theorem compute_similarity_spec :
    (∀ m n : ℚ, isGoodPair [m, n] = true ↔ m < 4/5 * n) ∧
    (∀ (b : Bool) (ms : List (List ℚ)),
      compute_similarity true b ms = (0, 0) ∧ compute_similarity b true ms = (0, 0)) ∧
    (∀ ms : List (List ℚ),
      compute_similarity false false ms =
        (((ms.filter isGoodPair).length : ℚ) / (ms.length : ℚ),
          (ms.filter isGoodPair).length)) := by
  refine ⟨?_, ?_, ?_⟩
  · intro m n
    simp [isGoodPair]
  · intro b ms
    constructor <;> simp [compute_similarity]
  · intro ms
    by_cases h : (ms.filter isGoodPair).length = 0
    · simp [compute_similarity, h]
    · simp [compute_similarity, h]

theorem truncQ_intCast (n : ℤ) : truncQ (n : ℚ) = n := by
  unfold truncQ
  split <;> simp

theorem truncQ_eval (q : ℚ) (n : ℤ) (h : q = (n : ℚ)) : truncQ q = n := by
  rw [h, truncQ_intCast]

/-- Claim C5: the coordinate mapper returns the integer truncation of
`dx = -width/2 + (x/width_raw)*width` and
`dy = -height/2 + (y/height_raw)*height`; at raw size (300,200), rendered
size (150,100), raw point (150,100) it returns (0,0) and raw point (0,0)
returns (-75,-50) (both exact, no truncation loss). -/
theorem map_coordinate_spec :
    (∀ (x y wr hr : ℕ) (w h : ℚ),
      map_coordinate x y wr hr w h =
        (truncQ (-(w / 2) + (x : ℚ) / (wr : ℚ) * w),
         truncQ (-(h / 2) + (y : ℚ) / (hr : ℚ) * h))) ∧
    map_coordinate 150 100 300 200 150 100 = (0, 0) ∧
    map_coordinate 0 0 300 200 150 100 = (-75, -50) := by
  refine ⟨fun x y wr hr w h => rfl, ?_, ?_⟩
  · show (truncQ _, truncQ _) = ((0 : ℤ), (0 : ℤ))
    rw [truncQ_eval _ 0 (by push_cast; norm_num), truncQ_eval _ 0 (by push_cast; norm_num)]
  · show (truncQ _, truncQ _) = ((-75 : ℤ), (-50 : ℤ))
    rw [truncQ_eval _ (-75) (by push_cast; norm_num), truncQ_eval _ (-50) (by push_cast; norm_num)]

theorem foldl_scanStep (sim : Bbox → Fin 3 → ℚ) (rs : List Bbox)
    (best : Fin 3 → Option BestMatch) (j : Fin 3) :
    (rs.foldl (fun best r => scanStep sim r best) best) j =
      track (fun r => sim r j) (best j) rs := by
  induction rs generalizing best with
  | nil => rfl
  | cons r rs ih =>
    rw [List.foldl_cons, ih (scanStep sim r best)]
    rfl

theorem scanRegions_eq_track (sim : Bbox → Fin 3 → ℚ) (rs : List Bbox) (j : Fin 3) :
    scanRegions sim rs j = track (fun r => sim r j) none rs :=
  foldl_scanStep sim rs (fun _ => none) j

theorem specBest_eq_none_iff (f : Bbox → ℚ) (rs : List Bbox) :
    specBest f rs = none ↔ rs = [] := by
  cases rs with
  | nil => simp [specBest]
  | cons r rs =>
    simp only [specBest]
    cases specBest f rs with
    | none => simp
    | some b =>
      by_cases h : b.similarity ≤ f r <;> simp [h]

theorem track_some (f : Bbox → ℚ) (rs : List Bbox) : ∀ b : BestMatch,
    track f (some b) rs =
      (match specBest f rs with
       | none => some b
       | some c => if b.similarity < c.similarity then some c else some b) := by
  induction rs with
  | nil => intro b; rfl
  | cons r rs ih =>
    intro b
    by_cases hbr : b.similarity < f r
    · have h1 : track f (some b) (r :: rs) = track f (some ⟨f r, center r⟩) rs := by
        simp [track, hbr]
      rw [h1, ih ⟨f r, center r⟩]
      cases hsp : specBest f rs with
      | none => simp [specBest, hsp, hbr]
      | some c =>
        simp only [specBest, hsp]
        by_cases hcr : c.similarity ≤ f r
        · have h2 : ¬ (f r < c.similarity) := not_lt.mpr hcr
          simp [hcr, h2, hbr]
        · have h2 : f r < c.similarity := not_le.mp hcr
          have h3 : b.similarity < c.similarity := lt_trans hbr h2
          simp [hcr, h2, h3]
    · have h1 : track f (some b) (r :: rs) = track f (some b) rs := by
        simp [track, hbr]
      rw [h1, ih b]
      cases hsp : specBest f rs with
      | none =>
        simp [specBest, hsp, hbr]
      | some c =>
        simp only [specBest, hsp]
        by_cases hcr : c.similarity ≤ f r
        · have h3 : ¬ (b.similarity < c.similarity) := by
            intro hcon
            exact hbr (lt_of_lt_of_le hcon hcr)
          simp [hcr, h3, hbr]
        · simp [hcr]

theorem track_none (f : Bbox → ℚ) (rs : List Bbox) :
    track f none rs = specBest f rs := by
  cases rs with
  | nil => rfl
  | cons r rs =>
    have h1 : track f none (r :: rs) = track f (some ⟨f r, center r⟩) rs := by
      simp [track]
    rw [h1, track_some f rs ⟨f r, center r⟩]
    cases hsp : specBest f rs with
    | none => simp [specBest, hsp]
    | some c =>
      simp only [specBest, hsp]
      by_cases hcr : c.similarity ≤ f r
      · have h2 : ¬ (f r < c.similarity) := not_lt.mpr hcr
        simp [hcr, h2]
      · have h2 : f r < c.similarity := not_le.mp hcr
        simp [hcr, h2]

theorem specBest_first_best (f : Bbox → ℚ) (rs : List Bbox) (h : rs ≠ []) :
    FirstBestSpec f rs (specBest f rs) := by
  induction rs with
  | nil => exact absurd rfl h
  | cons r rs ih =>
    cases hsp : specBest f rs with
    | none =>
      have hnil : rs = [] := (specBest_eq_none_iff f rs).mp hsp
      subst hnil
      refine ⟨⟨f r, center r⟩, by simp [specBest], ?_, [], r, [], by simp, rfl, rfl, by simp⟩
      intro r' hr'
      simp at hr'
      subst hr'
      exact le_refl _
    | some c =>
      have hne : rs ≠ [] := by
        intro hnil
        rw [hnil] at hsp
        exact Option.noConfusion hsp
      obtain ⟨b, hb, hmax, l₁, rm, l₂, hdec, hval, hpos, hfirst⟩ := ih hne
      rw [hsp] at hb
      obtain rfl : c = b := Option.some.inj hb
      by_cases hcr : c.similarity ≤ f r
      · refine ⟨⟨f r, center r⟩, by simp [specBest, hsp, hcr], ?_, [], r, rs, by simp, rfl, rfl, by simp⟩
        intro r' hr'
        rcases List.mem_cons.mp hr' with h1 | h1
        · subst h1; exact le_refl _
        · exact le_trans (hmax r' h1) hcr
      · have hlt : f r < c.similarity := not_le.mp hcr
        refine ⟨c, by simp [specBest, hsp, hcr], ?_, r :: l₁, rm, l₂, by simp [hdec], hval, hpos, ?_⟩
        · intro r' hr'
          rcases List.mem_cons.mp hr' with h1 | h1
          · subst h1; exact le_of_lt hlt
          · exact hmax r' h1
        · intro r' hr'
          rcases List.mem_cons.mp hr' with h1 | h1
          · subst h1; exact hlt
          · exact hfirst r' h1

/-- Claim C2: a sprite's record is replaced only on strict improvement, and
after scanning a nonempty region list each sprite's recorded similarity is
the maximum over all regions with the position being the center of the
first region attaining that maximum. -/
theorem scanRegions_best (sim : Bbox → Fin 3 → ℚ) (rs : List Bbox) (h : rs ≠ [])
    (j : Fin 3) :
    FirstBestSpec (fun r => sim r j) rs (scanRegions sim rs j) ∧
    (∀ (best : Fin 3 → Option BestMatch) (b : BestMatch) (r : Bbox),
      best j = some b → ¬ b.similarity < sim r j → scanStep sim r best j = some b) ∧
    (∀ (best : Fin 3 → Option BestMatch) (b : BestMatch) (r : Bbox),
      best j = some b → b.similarity < sim r j →
        scanStep sim r best j = some ⟨sim r j, center r⟩) := by
  refine ⟨?_, ?_, ?_⟩
  · rw [scanRegions_eq_track, track_none]
    exact specBest_first_best _ rs h
  · intro best b r hbj hlt
    simp [scanStep, hbj, hlt]
  · intro best b r hbj hlt
    simp [scanStep, hbj, hlt]

theorem scanRegions_best_witness :
    FirstBestSpec (fun r => (fun (_ : Bbox) (_ : Fin 3) => (1 : ℚ)) r 0) [bbox0]
        (scanRegions (fun _ _ => (1 : ℚ)) [bbox0] 0) ∧
    (∀ (best : Fin 3 → Option BestMatch) (b : BestMatch) (r : Bbox),
      best 0 = some b → ¬ b.similarity < (1 : ℚ) →
        scanStep (fun _ _ => (1 : ℚ)) r best 0 = some b) ∧
    (∀ (best : Fin 3 → Option BestMatch) (b : BestMatch) (r : Bbox),
      best 0 = some b → b.similarity < (1 : ℚ) →
        scanStep (fun _ _ => (1 : ℚ)) r best 0 = some ⟨(1 : ℚ), center r⟩) :=
  scanRegions_best (fun _ _ => (1 : ℚ)) [bbox0] (by simp) 0

theorem check_answer_iff (d : List (String × PyVal)) :
    check_answer d = true ↔
      6 ≤ d.length ∧ 3 ≤ (positionsOf d).length ∧ (positionsOf d).Nodup := by
  unfold check_answer
  by_cases h6 : d.length < 6
  · have h6' : ¬ 6 ≤ d.length := by omega
    simp [h6, h6']
  · have h6' : 6 ≤ d.length := by omega
    have hne : d.isEmpty = false := by
      cases d with
      | nil => simp at h6
      | cons a l => rfl
    by_cases h3 : (positionsOf d).length < 3
    · have h3' : ¬ 3 ≤ (positionsOf d).length := by omega
      simp [h6, hne, h3, h3']
    · have h3' : 3 ≤ (positionsOf d).length := by omega
      simp only [hne, h6, h3, Bool.false_or, if_neg, if_false, decide_False,
        Bool.false_eq_true, beq_iff_eq]
      constructor
      · intro hlen
        exact ⟨h6', h3', (length_dedup_eq_iff (positionsOf d)).mp hlen.symm⟩
      · intro hconj
        exact ((length_dedup_eq_iff (positionsOf d)).mpr hconj.2.2).symm

theorem check_answer_alt_iff (d : List (String × PyVal)) :
    check_answer_alt d = true ↔ 6 ≤ d.length ∧ (d.map Prod.snd).Nodup := by
  unfold check_answer_alt
  by_cases h6 : d.length < 6
  · have h6' : ¬ 6 ≤ d.length := by omega
    simp [h6, h6']
  · have h6' : 6 ≤ d.length := by omega
    have hne : d.isEmpty = false := by
      cases d with
      | nil => simp at h6
      | cons a l => rfl
    have hmlen : (d.map Prod.snd).length = d.length := List.length_map d Prod.snd
    simp only [hne, h6, Bool.false_or, if_neg, if_false, decide_False,
      Bool.false_eq_true, beq_iff_eq]
    constructor
    · intro hlen
      refine ⟨h6', (length_dedup_eq_iff (d.map Prod.snd)).mp ?_⟩
      omega
    · intro hconj
      have := (length_dedup_eq_iff (d.map Prod.snd)).mpr hconj.2
      omega

/-- Claim C3: `check_answer` accepts exactly the dictionaries with at least
6 entries whose (at least 3) position values are pairwise distinct; it
rejects the empty result, and every accepted result has at least 3 pairwise
distinct position values. -/
theorem check_answer_spec :
    (∀ d, check_answer d = true ↔
      6 ≤ d.length ∧ 3 ≤ (positionsOf d).length ∧ (positionsOf d).Nodup) ∧
    check_answer [] = false ∧
    (∀ d, check_answer d = true → 3 ≤ (positionsOf d).dedup.length) := by
  refine ⟨check_answer_iff, by rfl, ?_⟩
  intro d hd
  obtain ⟨h6, h3, hnodup⟩ := (check_answer_iff d).mp hd
  rw [List.dedup_eq_self.mpr hnodup]
  exact h3

/-- Counterexample to claim C10: a complete 3-sprite result with a repeated
similarity value (sprites 1 and 2 both score 0) but pairwise distinct
positions is accepted by `check_answer` of rainyun.py and rejected by
`check_answer` of 0x6768/rainyun.py, so the two validations are not
equivalent on complete result dictionaries. -/
theorem check_answer_disagree :
    check_answer (completeResult 0 0 1 (r"1,2") (r"3,4") (r"5,6")) = true ∧
    check_answer_alt (completeResult 0 0 1 (r"1,2") (r"3,4") (r"5,6")) = false := by
  constructor
  · decide
  · decide

/-- Claim C10 (amended): the two `check_answer` implementations return the
same boolean on every complete 3-sprite result dictionary whose three
similarity values are pairwise distinct. -/
theorem check_answer_agree (a1 a2 a3 : ℚ) (p1 p2 p3 : String)
    (h12 : a1 ≠ a2) (h13 : a1 ≠ a3) (h23 : a2 ≠ a3) :
    check_answer (completeResult a1 a2 a3 p1 p2 p3) =
      check_answer_alt (completeResult a1 a2 a3 p1 p2 p3) := by
  have e1 : pyEndsWith (r"sprite_1.similarity") positionSuffix = false := by decide
  have e2 : pyEndsWith (r"sprite_1.position") positionSuffix = true := by decide
  have e3 : pyEndsWith (r"sprite_2.similarity") positionSuffix = false := by decide
  have e4 : pyEndsWith (r"sprite_2.position") positionSuffix = true := by decide
  have e5 : pyEndsWith (r"sprite_3.similarity") positionSuffix = false := by decide
  have e6 : pyEndsWith (r"sprite_3.position") positionSuffix = true := by decide
  have hpos : positionsOf (completeResult a1 a2 a3 p1 p2 p3) =
      [PyVal.str p1, PyVal.str p2, PyVal.str p3] := by
    simp [positionsOf, completeResult, List.filter, e1, e2, e3, e4, e5, e6]
  have hlen : (completeResult a1 a2 a3 p1 p2 p3).length = 6 := by
    simp [completeResult]
  have hvals : (completeResult a1 a2 a3 p1 p2 p3).map Prod.snd =
      [PyVal.num a1, PyVal.str p1, PyVal.num a2, PyVal.str p2, PyVal.num a3,
        PyVal.str p3] := by
    simp [completeResult]
  by_cases hp : ([PyVal.str p1, PyVal.str p2, PyVal.str p3] : List PyVal).Nodup
  · have l1 : check_answer (completeResult a1 a2 a3 p1 p2 p3) = true :=
      (check_answer_iff _).mpr ⟨by omega, by rw [hpos]; simp, by rw [hpos]; exact hp⟩
    have hv : ((completeResult a1 a2 a3 p1 p2 p3).map Prod.snd).Nodup := by
      rw [hvals]
      simp only [List.nodup_cons, List.mem_cons, List.mem_singleton,
        List.not_mem_nil, List.nodup_nil] at hp ⊢
      simp only [PyVal.str.injEq, PyVal.num.injEq] at hp ⊢
      refine ⟨?_, ?_, ?_, ?_, ?_, ?_⟩ <;> simp_all
    have l2 : check_answer_alt (completeResult a1 a2 a3 p1 p2 p3) = true :=
      (check_answer_alt_iff _).mpr ⟨by omega, hv⟩
    rw [l1, l2]
  · have l1 : check_answer (completeResult a1 a2 a3 p1 p2 p3) = false := by
      cases hca : check_answer (completeResult a1 a2 a3 p1 p2 p3) with
      | false => rfl
      | true =>
        obtain ⟨_, _, hnodup⟩ := (check_answer_iff _).mp hca
        rw [hpos] at hnodup
        exact absurd hnodup hp
    have l2 : check_answer_alt (completeResult a1 a2 a3 p1 p2 p3) = false := by
      cases hca : check_answer_alt (completeResult a1 a2 a3 p1 p2 p3) with
      | false => rfl
      | true =>
        obtain ⟨_, hv⟩ := (check_answer_alt_iff _).mp hca
        rw [hvals] at hv
        have hsub : ([PyVal.str p1, PyVal.str p2, PyVal.str p3] : List PyVal).Sublist
            [PyVal.num a1, PyVal.str p1, PyVal.num a2, PyVal.str p2, PyVal.num a3,
              PyVal.str p3] := by
          apply List.Sublist.cons
          apply List.Sublist.cons₂
          apply List.Sublist.cons
          apply List.Sublist.cons₂
          apply List.Sublist.cons
          exact List.Sublist.refl _
        exact absurd (hv.sublist hsub) hp
    rw [l1, l2]

theorem check_answer_agree_witness :
    check_answer (completeResult 0 1 2 (r"1,2") (r"3,4") (r"1,2")) =
      check_answer_alt (completeResult 0 1 2 (r"1,2") (r"3,4") (r"1,2")) :=
  check_answer_agree 0 1 2 (r"1,2") (r"3,4") (r"1,2")
    (by decide) (by decide) (by decide)

theorem process_captcha_stop (limit : ℕ) (envs : ℕ → AttemptEnv) (rc : ℕ)
    (h : limit ≤ rc) : process_captcha limit envs rc = ([], Except.ok false) := by
  rw [process_captcha]
  simp [h]

theorem process_captcha_passed (limit : ℕ) (envs : ℕ → AttemptEnv) (rc : ℕ)
    (h : ¬ limit ≤ rc) (hb : (attemptBody (envs rc)).2 = BodyResult.passed) :
    process_captcha limit envs rc = ((attemptBody (envs rc)).1, Except.ok true) := by
  rw [process_captcha]
  simp [h, hb]

theorem process_captcha_retry_refresh (limit : ℕ) (envs : ℕ → AttemptEnv) (rc : ℕ)
    (h : ¬ limit ≤ rc)
    (hb : (attemptBody (envs rc)).2 = BodyResult.fellThrough ∨
      ∃ e, (attemptBody (envs rc)).2 = BodyResult.raised e ∧ caughtByRetryLoop e = true)
    (hr : (envs rc).refreshOk = true) :
    process_captcha limit envs rc =
      ((attemptBody (envs rc)).1 ++
        Ev.refresh true :: (process_captcha limit envs (rc + 1)).1,
       (process_captcha limit envs (rc + 1)).2) := by
  rw [process_captcha]
  rcases hb with hb | ⟨e, hb, hc⟩
  · simp [h, hb, hr]
  · simp [h, hb, hr, hc]

theorem process_captcha_retry_norefresh (limit : ℕ) (envs : ℕ → AttemptEnv) (rc : ℕ)
    (h : ¬ limit ≤ rc)
    (hb : (attemptBody (envs rc)).2 = BodyResult.fellThrough ∨
      ∃ e, (attemptBody (envs rc)).2 = BodyResult.raised e ∧ caughtByRetryLoop e = true)
    (hr : (envs rc).refreshOk = false) :
    process_captcha limit envs rc =
      ((attemptBody (envs rc)).1 ++ [Ev.refresh false], Except.ok false) := by
  rw [process_captcha]
  rcases hb with hb | ⟨e, hb, hc⟩
  · simp [h, hb, hr]
  · simp [h, hb, hr, hc]

theorem process_captcha_uncaught (limit : ℕ) (envs : ℕ → AttemptEnv) (rc : ℕ)
    (e : PyExn) (h : ¬ limit ≤ rc)
    (hb : (attemptBody (envs rc)).2 = BodyResult.raised e)
    (hc : caughtByRetryLoop e = false) :
    process_captcha limit envs rc = ((attemptBody (envs rc)).1, Except.error e) := by
  rw [process_captcha]
  simp [h, hb, hc]

theorem simEvents_no_download (rs : List Bbox) : Ev.download ∉ simEvents rs := by
  intro hmem
  simp [simEvents] at hmem

theorem attemptBody_one_download (env : AttemptEnv) :
    (attemptBody env).1.count Ev.download = 1 := by
  have hsim : (simEvents env.bboxes).count Ev.download = 0 :=
    List.count_eq_zero.mpr (simEvents_no_download env.bboxes)
  have hne1 : (Ev.check true == Ev.download) = false := by decide
  have hne3 : (Ev.answer true == Ev.download) = false := by decide
  have hne4 : (Ev.answer false == Ev.download) = false := by decide
  have hne5 : (Ev.verify true == Ev.download) = false := by decide
  have hne6 : (Ev.verify false == Ev.download) = false := by decide
  unfold attemptBody
  cases hd : env.download with
  | some e =>
    show List.count Ev.download [Ev.download] = 1
    decide
  | none =>
    by_cases hchk : check_captcha env.spriteWidth env.classify = true
    · simp only [hchk, if_true]
      by_cases him : env.imreadOk = true
      · simp only [him, if_true]
        by_cases hans :
            check_answer (resultDict (scanRegions env.sim env.bboxes)) = true
        · simp only [hans, if_true]
          cases ha : env.act with
          | some e =>
            simp [List.count_append, List.count_cons, hsim, hne1, hne3]
          | none =>
            cases hv : env.verifySuccess with
            | true =>
              simp [List.count_append, List.count_cons, hsim, hne1, hne3, hne5]
            | false =>
              simp [List.count_append, List.count_cons, hsim, hne1, hne3, hne6]
        · rw [Bool.not_eq_true] at hans
          simp [hans, List.count_append, List.count_cons, hsim, hne1, hne4]
      · rw [Bool.not_eq_true] at him
        simp [him]
    · rw [Bool.not_eq_true] at hchk
      simp [hchk]

theorem process_captcha_download_le (limit : ℕ) (envs : ℕ → AttemptEnv) :
    ∀ (n rc : ℕ), limit - rc ≤ n →
      (process_captcha limit envs rc).1.count Ev.download ≤ limit - rc := by
  intro n
  induction n with
  | zero =>
    intro rc hn
    have h : limit ≤ rc := by omega
    rw [process_captcha_stop limit envs rc h]
    simp
  | succ n ih =>
    intro rc hn
    by_cases h : limit ≤ rc
    · rw [process_captcha_stop limit envs rc h]
      simp
    · have hone := attemptBody_one_download (envs rc)
      have hner : (Ev.refresh true == Ev.download) = false := by decide
      have hner2 : (Ev.refresh false == Ev.download) = false := by decide
      rcases hb : (attemptBody (envs rc)).2 with _ | _ | e
      · rw [process_captcha_passed limit envs rc h hb]
        simp only []
        omega
      · by_cases hr : (envs rc).refreshOk = true
        · rw [process_captcha_retry_refresh limit envs rc h (Or.inl hb) hr]
          have hrest := ih (rc + 1) (by omega)
          simp [List.count_append, List.count_cons, hner, hone]
          omega
        · rw [Bool.not_eq_true] at hr
          rw [process_captcha_retry_norefresh limit envs rc h (Or.inl hb) hr]
          simp [List.count_append, List.count_cons, hner2, hone]
          omega
      · by_cases hc : caughtByRetryLoop e = true
        · by_cases hr : (envs rc).refreshOk = true
          · rw [process_captcha_retry_refresh limit envs rc h (Or.inr ⟨e, hb, hc⟩) hr]
            have hrest := ih (rc + 1) (by omega)
            simp [List.count_append, List.count_cons, hner, hone]
            omega
          · rw [Bool.not_eq_true] at hr
            rw [process_captcha_retry_norefresh limit envs rc h (Or.inr ⟨e, hb, hc⟩) hr]
            simp [List.count_append, List.count_cons, hner2, hone]
            omega
        · rw [Bool.not_eq_true] at hc
          rw [process_captcha_uncaught limit envs rc e h hb hc]
          simp only []
          omega

/-- Claim C4: once `retry_count` reaches `CAPTCHA_RETRY_LIMIT` the solver
returns `False` immediately and does no work (empty event trace); in every
run the number of attempts (one image download per attempt) is at most the
remaining budget, so at most the configured limit from the initial call;
and each retry recurses with `retry_count + 1`, preserving the outcome. -/
theorem process_captcha_budget :
    (∀ (limit : ℕ) (envs : ℕ → AttemptEnv) (rc : ℕ), limit ≤ rc →
      process_captcha limit envs rc = ([], Except.ok false)) ∧
    (∀ (limit : ℕ) (envs : ℕ → AttemptEnv) (rc : ℕ),
      (process_captcha limit envs rc).1.count Ev.download ≤ limit - rc) ∧
    (∀ (limit : ℕ) (envs : ℕ → AttemptEnv),
      (process_captcha limit envs 0).1.count Ev.download ≤ limit) ∧
    (∀ (limit : ℕ) (envs : ℕ → AttemptEnv) (rc : ℕ), rc < limit →
      (attemptBody (envs rc)).2 = BodyResult.fellThrough →
      (envs rc).refreshOk = true →
      (process_captcha limit envs rc).2 = (process_captcha limit envs (rc + 1)).2) := by
  refine ⟨process_captcha_stop, ?_, ?_, ?_⟩
  · intro limit envs rc
    exact process_captcha_download_le limit envs (limit - rc) rc (le_refl _)
  · intro limit envs
    have h := process_captcha_download_le limit envs limit 0 (by omega)
    simpa using h
  · intro limit envs rc hrc hb hr
    rw [process_captcha_retry_refresh limit envs rc (by omega) (Or.inl hb) hr]

theorem caught_never_escapes (limit : ℕ) (envs : ℕ → AttemptEnv) :
    ∀ (n rc : ℕ) (e : PyExn), limit - rc ≤ n →
      (process_captcha limit envs rc).2 = Except.error e →
      caughtByRetryLoop e = false := by
  intro n
  induction n with
  | zero =>
    intro rc e hn herr
    have h : limit ≤ rc := by omega
    rw [process_captcha_stop limit envs rc h] at herr
    exact absurd herr (by simp)
  | succ n ih =>
    intro rc e hn herr
    by_cases h : limit ≤ rc
    · rw [process_captcha_stop limit envs rc h] at herr
      exact absurd herr (by simp)
    · rcases hb : (attemptBody (envs rc)).2 with _ | _ | e'
      · rw [process_captcha_passed limit envs rc h hb] at herr
        exact absurd herr (by simp)
      · by_cases hr : (envs rc).refreshOk = true
        · rw [process_captcha_retry_refresh limit envs rc h (Or.inl hb) hr] at herr
          exact ih (rc + 1) e (by omega) herr
        · rw [Bool.not_eq_true] at hr
          rw [process_captcha_retry_norefresh limit envs rc h (Or.inl hb) hr] at herr
          exact absurd herr (by simp)
      · by_cases hc : caughtByRetryLoop e' = true
        · by_cases hr : (envs rc).refreshOk = true
          · rw [process_captcha_retry_refresh limit envs rc h (Or.inr ⟨e', hb, hc⟩) hr] at herr
            exact ih (rc + 1) e (by omega) herr
          · rw [Bool.not_eq_true] at hr
            rw [process_captcha_retry_norefresh limit envs rc h (Or.inr ⟨e', hb, hc⟩) hr] at herr
            exact absurd herr (by simp)
        · rw [Bool.not_eq_true] at hc
          rw [process_captcha_uncaught limit envs rc e' h hb hc] at herr
          have he : e' = e := by
            simpa using herr
          rw [← he]
          exact hc

/-- Claim C7: a caught-class exception (TimeoutException, ValueError,
CaptchaRetryableError) never escapes `process_captcha` — an `error` outcome
always carries an uncaught exception kind; an uncaught exception raised
during an attempt with budget remaining propagates immediately (the run
ends right after that attempt's events with that error, no refresh, no
further attempt); and a caught exception with budget remaining leads to a
refresh and the next attempt. -/
theorem retry_exception_policy :
    ∀ (limit : ℕ) (envs : ℕ → AttemptEnv) (rc : ℕ) (e : PyExn),
      ((process_captcha limit envs rc).2 = Except.error e →
        caughtByRetryLoop e = false) ∧
      (rc < limit → (attemptBody (envs rc)).2 = BodyResult.raised e →
        caughtByRetryLoop e = false →
        process_captcha limit envs rc = ((attemptBody (envs rc)).1, Except.error e)) ∧
      (rc < limit → (attemptBody (envs rc)).2 = BodyResult.raised e →
        caughtByRetryLoop e = true → (envs rc).refreshOk = true →
        process_captcha limit envs rc =
          ((attemptBody (envs rc)).1 ++
            Ev.refresh true :: (process_captcha limit envs (rc + 1)).1,
           (process_captcha limit envs (rc + 1)).2)) := by
  intro limit envs rc e
  refine ⟨?_, ?_, ?_⟩
  · exact caught_never_escapes limit envs (limit - rc) rc e (le_refl _)
  · intro hrc hb hc
    exact process_captcha_uncaught limit envs rc e (by omega) hb hc
  · intro hrc hb hc hr
    exact process_captcha_retry_refresh limit envs rc (by omega) (Or.inr ⟨e, hb, hc⟩) hr

/-- Claim C6: in an attempt whose downloaded sprite sheet `check_captcha`
classifies as degenerate (result `false`), no feature-matcher call happens
during that attempt, and the run goes directly from the validity check to
the refresh action and (when the refresh works) the next attempt. -/
theorem degenerate_skips_matching (limit : ℕ) (envs : ℕ → AttemptEnv) (rc : ℕ)
    (hrc : rc < limit) (hdl : (envs rc).download = none)
    (hchk : check_captcha (envs rc).spriteWidth (envs rc).classify = false) :
    (∀ (r : Bbox) (j : Fin 3), Ev.simCall r j ∉ (attemptBody (envs rc)).1) ∧
    (process_captcha limit envs rc).1 =
      Ev.download :: Ev.check false ::
        (if (envs rc).refreshOk then
          Ev.refresh true :: (process_captcha limit envs (rc + 1)).1
         else [Ev.refresh false]) := by
  have hbody : attemptBody (envs rc) =
      ([Ev.download, Ev.check false], BodyResult.fellThrough) := by
    unfold attemptBody
    rw [hdl, hchk]
    simp
  constructor
  · intro r j hmem
    rw [hbody] at hmem
    simp at hmem
  · by_cases hr : (envs rc).refreshOk = true
    · rw [process_captcha_retry_refresh limit envs rc (by omega) (Or.inl (by rw [hbody])) hr]
      rw [hbody]
      simp [hr]
    · have hr' : (envs rc).refreshOk = false := by
        rw [← Bool.not_eq_true]
        exact hr
      rw [process_captcha_retry_norefresh limit envs rc (by omega) (Or.inl (by rw [hbody])) hr']
      rw [hbody]
      simp [hr']

theorem degenerate_skips_matching_witness :
    (∀ (r : Bbox) (j : Fin 3),
      Ev.simCall r j ∉ (attemptBody ((fun _ => envDegenerate) 0)).1) ∧
    (process_captcha 1 (fun _ => envDegenerate) 0).1 =
      Ev.download :: Ev.check false ::
        (if ((fun _ => envDegenerate) 0).refreshOk then
          Ev.refresh true :: (process_captcha 1 (fun _ => envDegenerate) 1).1
         else [Ev.refresh false]) :=
  degenerate_skips_matching 1 (fun _ => envDegenerate) 0 (by decide) (by rfl) (by decide)

theorem resolve_element_size_fallback (e : ElementView)
    (he : e.styleW = none ∨ e.styleH = none) :
    resolve_element_size e = get_element_size e.measuredW e.measuredH := by
  unfold resolve_element_size
  rcases he with he | he
  · rw [he]
  · rcases hsw : e.styleW with _ | w
    · rfl
    · rw [he]

/-- Claim C8: the rendered element size is taken from the inline style when
both style dimensions parse; exactly when a style parse fails the code
falls back to the element's measured size; and when the fallback also finds
no usable width or height the step fails with a `ValueError`, which is one
of the exception kinds caught and retried by `process_captcha`'s loop. -/
theorem element_size_resolution :
    (∀ (e : ElementView) (w h : ℚ), e.styleW = some w → e.styleH = some h →
      resolve_element_size e = Except.ok (w, h)) ∧
    (∀ e : ElementView, (e.styleW = none ∨ e.styleH = none) →
      resolve_element_size e = get_element_size e.measuredW e.measuredH) ∧
    (∀ e : ElementView, (e.styleW = none ∨ e.styleH = none) →
      (e.measuredW = 0 ∨ e.measuredH = 0) →
      resolve_element_size e = Except.error PyExn.valueError) ∧
    caughtByRetryLoop PyExn.valueError = true := by
  refine ⟨?_, resolve_element_size_fallback, ?_, rfl⟩
  · intro e w h hw hh
    unfold resolve_element_size
    rw [hw, hh]
  · intro e he hm
    rw [resolve_element_size_fallback e he]
    unfold get_element_size
    rw [if_pos hm]

theorem bands_width (w i : ℕ) : bandHi w i - bandLo w i = w / 3 := by
  unfold bandHi bandLo
  rw [Nat.mul_succ, Nat.add_sub_cancel_left]

theorem bands_cover (w c : ℕ) (hc : c < w / 3 * 3) :
    ∃ i, i < 3 ∧ bandLo w i ≤ c ∧ c < bandHi w i := by
  have hqpos : 0 < w / 3 := by
    rcases Nat.eq_zero_or_pos (w / 3) with hq | hq
    · rw [hq] at hc
      simp at hc
    · exact hq
  refine ⟨c / (w / 3), ?_, ?_, ?_⟩
  · rw [Nat.div_lt_iff_lt_mul hqpos]
    omega
  · unfold bandLo
    exact Nat.le.intro (Nat.div_add_mod c (w / 3))
  · unfold bandHi
    calc c = w / 3 * (c / (w / 3)) + c % (w / 3) := (Nat.div_add_mod c (w / 3)).symm
      _ < w / 3 * (c / (w / 3)) + w / 3 := by
          have hmod := Nat.mod_lt c hqpos
          omega
      _ = w / 3 * (c / (w / 3) + 1) := by rw [Nat.mul_succ]

theorem bands_partition_of_dvd (w : ℕ) (hw : 3 ∣ w) : bandsPartitionImage w := by
  intro c hc
  apply bands_cover
  have h3 : w / 3 * 3 = w := Nat.div_mul_cancel hw
  omega

theorem check_captcha_false_iff (w : ℕ) (classify : ℕ → ℕ → String) :
    check_captcha w classify = false ↔
      ∃ i, i < 3 ∧ classify (bandLo w i) (bandHi w i) ∈ degenerateLabels := by
  have htrue : check_captcha w classify = true ↔
      ∀ i, i < 3 → classify (bandLo w i) (bandHi w i) ∉ degenerateLabels := by
    unfold check_captcha
    simp [List.all_eq_true, List.mem_range]
  rw [← Bool.not_eq_true, htrue]
  push_neg
  rfl

/-- Counterexample to claim C9 as stated: for a sprite sheet of width 4 the
three bands `[w//3*i, w//3*(i+1))` cover only columns 0..2, so they do not
evenly partition the image (column 3 belongs to no band). -/
theorem bands_no_partition_width4 : ¬ bandsPartitionImage 4 := by
  decide

/-- Claim C9 (amended): the classifier slices the sheet into 3 bands of
equal width `w // 3` which partition the first `w // 3 * 3` columns (the
whole image exactly when `3 ∣ w`), and it reports the puzzle invalid
exactly when some band's label lies in the degenerate set `{"0", "1"}`. -/
theorem check_captcha_spec :
    (∀ w i, bandHi w i - bandLo w i = w / 3) ∧
    (∀ w c, c < w / 3 * 3 → ∃ i, i < 3 ∧ bandLo w i ≤ c ∧ c < bandHi w i) ∧
    (∀ w, 3 ∣ w → bandsPartitionImage w) ∧
    (∀ (w : ℕ) (classify : ℕ → ℕ → String), check_captcha w classify = false ↔
      ∃ i, i < 3 ∧ classify (bandLo w i) (bandHi w i) ∈ degenerateLabels) :=
  ⟨bands_width, bands_cover, bands_partition_of_dvd, check_captcha_false_iff⟩
